import Mathlib

/-!
# uni-tracker: formalisation of the task-generation core

A shallow embedding, in Lean 4, of the core logic of the `uni-tracker`
repository (`src/api/db.ts`, final service definitions starting at line 720,
and the requirement matcher in the `UniversityDetail` component).

Modelling conventions:

* SQLite rows and the single mutable connection are replaced by an explicit
  state record `DB` threaded through every operation; auto-increment ids are
  explicit counters.
* JavaScript numbers are modelled as `ℚ` (scores, budgets) and `ℕ` (counts,
  ids); calendar dates (ISO `YYYY-MM-DD` strings in the source) are modelled
  as integer day numbers, so `Date.setDate(getDate() - 30)` followed by
  `toISOString().split('T')[0]` is subtraction of 30.
* JavaScript truthiness on optional numbers and strings is modelled
  explicitly (`truthyQ`, `truthyN`, `orNullNat`, `orNullStr`, `jsOrQ`):
  `0`, `''`, `null` and `undefined` are falsy.
* A thrown exception is an `Except.error` value, paired with the state at the
  point of the throw (writes performed before the throw persist).
* The stored `requirements` column is a JSON string; it is modelled by
  `ReqField`: `absent` (NULL or empty string, falsy), `malformed` (present
  but not parseable, so `JSON.parse` throws), or `parsed r`.
* Wall-clock fields (`createdAt`, `updatedAt`, `completedAt`) and
  purely-descriptive university columns (country, program, notes, ...) are
  not read by any modelled operation and are elided.
-/

namespace UniTracker

/-- JS truthiness of an optional number (`undefined`/`null`/`0` are falsy). -/
def truthyQ : Option ℚ → Bool
  | none => false
  | some x => x ≠ 0

/-- JS truthiness of an optional natural number. -/
def truthyN : Option ℕ → Bool
  | none => false
  | some n => n ≠ 0

/-- JS `a || b` on optional numbers (used for `ieltsMin || ieltsAvg`). -/
def jsOrQ (a b : Option ℚ) : Option ℚ :=
  if truthyQ a then a else b

/-- JS `x || null` on an optional id (`0` collapses to `null`). -/
def orNullNat : Option ℕ → Option ℕ
  | none => none
  | some n => if n = 0 then none else some n

/-- JS `x || null` on an optional string (`''` collapses to `null`). -/
def orNullStr : Option String → Option String
  | none => none
  | some s => if s = "" then none else some s

/-- JS `Math.round`: round half toward positive infinity. -/
def jsRound (x : ℚ) : ℤ := ⌊x + 1 / 2⌋

/-- `transcriptStatus` enum of the `Profile` row. -/
inductive TranscriptStatus
  | missing | requested | received | submitted
deriving DecidableEq, Repr

/-- Render `transcriptStatus` the way the row stores it. -/
def TranscriptStatus.toStr : TranscriptStatus → String
  | .missing => "missing"
  | .requested => "requested"
  | .received => "received"
  | .submitted => "submitted"

/-- `statementStatus` enum of the `Profile` row. -/
inductive StatementStatus
  | not_started | drafting | reviewing | complete
deriving DecidableEq, Repr

/-- Render `statementStatus` the way the row stores it. -/
def StatementStatus.toStr : StatementStatus → String
  | .not_started => "not_started"
  | .drafting => "drafting"
  | .reviewing => "reviewing"
  | .complete => "complete"

/-- The single `Profile` row (db.ts:768). -/
structure Profile where
  satTarget : Option ℚ := none
  satActual : Option ℚ := none
  ieltsScore : Option ℚ := none
  toeflScore : Option ℚ := none
  transcriptStatus : TranscriptStatus := .missing
  recommendationsCount : ℕ := 0
  statementStatus : StatementStatus := .not_started
  feeBudget : Option ℚ := none
deriving DecidableEq, Repr

/-- `ProfileService.getProfile` maps `0`/`NULL` numeric columns to
`undefined` (`row.satActual || undefined`, db.ts:1157), so a profile
obtained through the service never carries a present-but-zero optional
score.  We track that as a well-formedness predicate. -/
def Profile.WF (p : Profile) : Prop :=
  p.satActual ≠ some 0 ∧ p.ieltsScore ≠ some 0 ∧ p.toeflScore ≠ some 0 ∧
    p.feeBudget ≠ some 0

/-- SAT requirement descriptor (db.ts:783). -/
structure ReqSat where
  required : Bool
  minScore : Option ℚ := none
  avgScore : Option ℚ := none
deriving DecidableEq, Repr

/-- IELTS/TOEFL requirement descriptor (db.ts:784-785). -/
structure ReqMin where
  required : Bool
  minScore : Option ℚ := none
deriving DecidableEq, Repr

/-- Count-based requirement descriptor (db.ts:786-788). -/
structure ReqCount where
  required : Bool
  count : Option ℕ := none
deriving DecidableEq, Repr

/-- Interview requirement descriptor (db.ts:789). -/
structure ReqFlag where
  required : Bool
deriving DecidableEq, Repr

/-- The parsed `UniversityRequirements` mapping (db.ts:782-791).  The
`applicationFee` descriptor carries no `required` flag and is never read by
the generator, so it is elided. -/
structure UniversityRequirements where
  sat : Option ReqSat := none
  ielts : Option ReqMin := none
  toefl : Option ReqMin := none
  transcripts : Option ReqCount := none
  recommendations : Option ReqCount := none
  essays : Option ReqCount := none
  interview : Option ReqFlag := none
deriving DecidableEq, Repr

/-- `requirements.sat?.required` (optional chaining: `undefined` is falsy). -/
def satReq : Option ReqSat → Bool
  | none => false
  | some s => s.required

/-- `requirements.ielts?.required` / `requirements.toefl?.required`. -/
def minReq : Option ReqMin → Bool
  | none => false
  | some s => s.required

/-- `requirements.transcripts?.required` and the other count kinds. -/
def countReq : Option ReqCount → Bool
  | none => false
  | some s => s.required

/-- `requirements.interview?.required`. -/
def flagReq : Option ReqFlag → Bool
  | none => false
  | some s => s.required

/-- The stored `requirements` column of a university row: NULL/empty string
(falsy, so the generator substitutes `{}`), present but not valid JSON
(`JSON.parse` throws), or a parseable payload. -/
inductive ReqField
  | absent
  | malformed
  | parsed (r : UniversityRequirements)
deriving DecidableEq, Repr

/-- A `universities` row (db.ts:723), restricted to the columns the modelled
operations read. -/
structure University where
  id : ℕ
  name : String
  deadlineEarly : Option ℤ := none
  deadlineRegular : Option ℤ := none
  requirements : ReqField := .absent
deriving DecidableEq, Repr

/-- A `tasks` row (db.ts:755). -/
structure Task where
  id : ℕ
  universityId : Option ℕ := none
  title : String
  description : Option String := none
  dueDate : Option ℤ := none
  status : String
  priority : String
  profileItemType : Option String := none
deriving DecidableEq, Repr

/-- The column values handed to `TaskService.create` (everything but the
auto-increment id). -/
structure TaskFields where
  universityId : Option ℕ := none
  title : String
  description : Option String := none
  dueDate : Option ℤ := none
  status : String
  priority : String
  profileItemType : Option String := none
deriving DecidableEq, Repr

/-- Forget a task's auto-increment id. -/
def Task.fields (t : Task) : TaskFields :=
  { universityId := t.universityId, title := t.title,
    description := t.description, dueDate := t.dueDate, status := t.status,
    priority := t.priority, profileItemType := t.profileItemType }

/-- The whole persistent store: the three tables plus auto-increment
counters.  All operations thread this state explicitly. -/
structure DB where
  universities : List University := []
  profile : Option Profile := none
  tasks : List Task := []
  nextTaskId : ℕ := 1
  nextUniversityId : ℕ := 1
deriving DecidableEq, Repr

/-- `UniversityService.getById` (db.ts:1460): `SELECT * FROM universities
WHERE id = ?`. -/
def UniversityService.getById (db : DB) (id : ℕ) : Option University :=
  db.universities.find? (fun u => u.id == id)

/-- `TaskService.getByUniversity` (db.ts:1597): `SELECT ... FROM tasks WHERE
universityId = ?`. -/
def TaskService.getByUniversity (db : DB) (universityId : ℕ) : List Task :=
  db.tasks.filter (fun t => t.universityId == some universityId)

/-- `TaskService.create` (db.ts:1615): inserts a row, applying the JS `||
null` coercions of the INSERT parameter list (db.ts:1622-1624). -/
def TaskService.create (db : DB) (f : TaskFields) : Task × DB :=
  let t : Task :=
    { id := db.nextTaskId,
      universityId := orNullNat f.universityId,
      title := f.title,
      description := orNullStr f.description,
      dueDate := f.dueDate,
      status := f.status,
      priority := f.priority,
      profileItemType := orNullStr f.profileItemType }
  (t, { db with tasks := db.tasks ++ [t], nextTaskId := db.nextTaskId + 1 })

/-- The row inserted by `ProfileService.createDefaultProfile` (db.ts:1168). -/
def defaultProfile : Profile :=
  { transcriptStatus := .missing, recommendationsCount := 0,
    statementStatus := .not_started }

/-- `await ProfileService.getProfile() || await
ProfileService.createDefaultProfile()` (db.ts:1302). -/
def getOrCreateProfile (db : DB) : Profile × DB :=
  match db.profile with
  | some p => (p, db)
  | none => (defaultProfile, { db with profile := some defaultProfile })

/-- Errors a generation call can throw. -/
inductive GenError
  | notFound
  | parseError
deriving DecidableEq, Repr

/-- `university.requirements ? JSON.parse(university.requirements) : {}`
(db.ts:1303): a falsy column yields the empty mapping, a malformed payload
makes `JSON.parse` throw. -/
def parseRequirements : ReqField → Except GenError UniversityRequirements
  | .absent => .ok {}
  | .malformed => .error .parseError
  | .parsed r => .ok r

/-- Shared due date of a generated batch (db.ts:1309-1314): if
`deadlineEarly || deadlineRegular` is truthy, that deadline minus 30 days;
otherwise no due date. -/
def dueDateOf (u : University) : Option ℤ :=
  match u.deadlineEarly with
  | some d => some (d - 30)
  | none =>
    match u.deadlineRegular with
    | some d => some (d - 30)
    | none => none

/-- `${requirements.sat.avgScore ? ...}` fragment of the SAT description
(db.ts:1321). -/
def satAvgNote (s : ReqSat) : String :=
  if truthyQ s.avgScore then " (avg: " ++ toString (s.avgScore.getD 0) ++ ")"
  else ""

/-- `${requirements.sat.minScore ? ...}` fragment of the SAT description
(db.ts:1321). -/
def satMinNote (s : ReqSat) : String :=
  if truthyQ s.minScore then " (min: " ++ toString (s.minScore.getD 0) ++ ")"
  else ""

/-- The SAT rule (db.ts:1317-1339): an `if`/`else if` pair, so at most one
task.  First branch: SAT required and no (truthy) `satActual`.  Second
branch: SAT required, `satActual` and `minScore` truthy, and the score is
below the minimum. -/
def satPlan (u : University) (p : Profile) (r : UniversityRequirements)
    (d : Option ℤ) : List TaskFields :=
  match r.sat with
  | none => []
  | some s =>
    if s.required && !truthyQ p.satActual then
      [{ universityId := some u.id,
         title := "Take SAT for " ++ u.name,
         description := some (u.name ++ " requires SAT" ++ satAvgNote s ++
           satMinNote s ++ ". Schedule and take the test."),
         dueDate := d, status := "suggested", priority := "high",
         profileItemType := some "sat_actual" }]
    else if s.required && truthyQ p.satActual && truthyQ s.minScore &&
        decide (p.satActual.getD 0 < s.minScore.getD 0) then
      [{ universityId := some u.id,
         title := "Retake SAT for " ++ u.name,
         description := some ("Your score (" ++ toString (p.satActual.getD 0)
           ++ ") is below the minimum required (" ++
           toString (s.minScore.getD 0) ++ ") for " ++ u.name ++
           ". Consider retaking."),
         dueDate := d, status := "suggested", priority := "high",
         profileItemType := some "sat_actual" }]
    else []

/-- `(min: ...)` fragment of the English-test description (db.ts:1346). -/
def englishMinNote (r : UniversityRequirements) : String :=
  if truthyQ ((r.ielts.map ReqMin.minScore).getD none) then
    " (min: " ++ toString (((r.ielts.map ReqMin.minScore).getD none).getD 0)
      ++ ")"
  else if truthyQ ((r.toefl.map ReqMin.minScore).getD none) then
    " (min: " ++ toString (((r.toefl.map ReqMin.minScore).getD none).getD 0)
      ++ ")"
  else ""

/-- The IELTS/TOEFL rule (db.ts:1342-1353): fires when either test is
required and neither score is (truthily) recorded; `profileItemType` is the
ternary `profile.ieltsScore ? 'ieltsScore' : 'toeflScore'`. -/
def englishPlan (u : University) (p : Profile) (r : UniversityRequirements)
    (d : Option ℤ) : List TaskFields :=
  if (minReq r.ielts || minReq r.toefl) &&
      !(truthyQ p.ieltsScore || truthyQ p.toeflScore) then
    [{ universityId := some u.id,
       title := "Take English Proficiency Test for " ++ u.name,
       description := some (u.name ++ " requires " ++
         (if minReq r.ielts then "IELTS" else "TOEFL") ++ englishMinNote r ++
         "."),
       dueDate := d, status := "suggested", priority := "high",
       profileItemType :=
         some (if truthyQ p.ieltsScore then "ieltsScore" else "toeflScore") }]
  else []

/-- The transcripts rule (db.ts:1356-1367). -/
def transcriptsPlan (u : University) (p : Profile)
    (r : UniversityRequirements) (d : Option ℤ) : List TaskFields :=
  if countReq r.transcripts && decide (p.transcriptStatus = .missing) then
    [{ universityId := some u.id,
       title := "Request transcripts for " ++ u.name,
       description := some (u.name ++
         " requires transcripts. Contact your school to request official transcripts."),
       dueDate := d, status := "suggested", priority := "high",
       profileItemType := some "transcriptStatus" }]
  else []

/-- `requirements.recommendations.count || 1` (db.ts:1371) and
`requirements.essays.count || 1` (db.ts:1391). -/
def countOr1 : Option ℕ → ℕ
  | none => 1
  | some n => if n = 0 then 1 else n

/-- The recommendations rule (db.ts:1370-1384): fires when required and the
recorded count is below `count || 1`. -/
def recsPlan (u : University) (p : Profile) (r : UniversityRequirements)
    (d : Option ℤ) : List TaskFields :=
  match r.recommendations with
  | none => []
  | some rec =>
    if rec.required && decide (p.recommendationsCount < countOr1 rec.count) then
      [{ universityId := some u.id,
         title := "Request recommendation letters for " ++ u.name,
         description := some (u.name ++ " requires " ++
           toString (countOr1 rec.count) ++
           " recommendation letter(s). You currently have " ++
           toString p.recommendationsCount ++
           ". Contact teachers or mentors."),
         dueDate := d, status := "suggested", priority := "high",
         profileItemType := some "recommendationsCount" }]
    else []

/-- The essays rule (db.ts:1387-1398). -/
def essaysPlan (u : University) (p : Profile) (r : UniversityRequirements)
    (d : Option ℤ) : List TaskFields :=
  match r.essays with
  | none => []
  | some e =>
    if e.required && decide (p.statementStatus = .not_started) then
      [{ universityId := some u.id,
         title := "Write essays for " ++ u.name,
         description := some (u.name ++ " requires " ++
           toString (countOr1 e.count) ++
           " essay(s). Start drafting your personal statement and supplemental essays."),
         dueDate := d, status := "suggested", priority := "medium",
         profileItemType := some "statementStatus" }]
    else []

/-- The interview rule (db.ts:1401-1412): fires whenever required;
`profileItemType` is passed as `undefined`. -/
def interviewPlan (u : University) (r : UniversityRequirements)
    (d : Option ℤ) : List TaskFields :=
  if flagReq r.interview then
    [{ universityId := some u.id,
       title := "Prepare for interview at " ++ u.name,
       description := some (u.name ++
         " requires an interview. Research common questions and practice your responses."),
       dueDate := d, status := "suggested", priority := "medium",
       profileItemType := none }]
  else []

/-- The full batch a single `generateTasksForUniversity` call plans: the six
rule groups in source order.  The source interleaves the condition checks
with the `TaskService.create` calls, but no condition reads the task store,
so planning first and creating afterwards is behaviour-preserving. -/
def taskPlans (u : University) (p : Profile) (r : UniversityRequirements)
    (d : Option ℤ) : List TaskFields :=
  satPlan u p r d ++ englishPlan u p r d ++ transcriptsPlan u p r d ++
    recsPlan u p r d ++ essaysPlan u p r d ++ interviewPlan u r d

/-- Run `TaskService.create` over a planned batch, in order, collecting the
created rows. -/
def createAll (db : DB) (fs : List TaskFields) : List Task × DB :=
  match fs with
  | [] => ([], db)
  | f :: rest =>
    let c := TaskService.create db f
    let cs := createAll c.2 rest
    (c.1 :: cs.1, cs.2)

/-- `TaskGenerator.generateTasksForUniversity` (db.ts:1296-1415).  Returns
the thrown error or the created batch, together with the store state at
return/throw time (the lazily created default profile persists even when the
requirements payload fails to parse, matching the source's order of
effects). -/
def generateTasksForUniversity (db : DB) (universityId : ℕ) :
    Except GenError (List Task) × DB :=
  match UniversityService.getById db universityId with
  | none => (.error .notFound, db)
  | some university =>
    let pd := getOrCreateProfile db
    match parseRequirements university.requirements with
    | .error e => (.error e, pd.2)
    | .ok requirements =>
      let res := createAll pd.2
        (taskPlans university pd.1 requirements (dueDateOf university))
      (.ok res.1, res.2)

/-- The relevance check of `generateTasksForProfileUpdate`
(db.ts:1432-1436): the five `if` statements that set `shouldGenerate`. -/
def shouldGenerateFor (updatedFields : List String)
    (r : UniversityRequirements) : Bool :=
  (updatedFields.contains "satActual" && satReq r.sat) ||
  ((updatedFields.contains "ieltsScore" || updatedFields.contains "toeflScore")
      && (minReq r.ielts || minReq r.toefl)) ||
  (updatedFields.contains "transcriptStatus" && countReq r.transcripts) ||
  (updatedFields.contains "recommendationsCount" &&
      countReq r.recommendations) ||
  (updatedFields.contains "statementStatus" && countReq r.essays)

/-- `existingTasks.some(t => t.status === 'suggested')` over
`TaskService.getByUniversity` (db.ts:1440-1441). -/
def hasSuggested (db : DB) (universityId : ℕ) : Bool :=
  (TaskService.getByUniversity db universityId).any
    (fun t => t.status == "suggested")

/-- The `for (const university of universities)` loop of
`generateTasksForProfileUpdate` (db.ts:1427-1448), over the snapshot list
fetched before the loop. -/
def profileUpdateGo (us : List University) (updatedFields : List String)
    (db : DB) (acc : List Task) : Except GenError (List Task) × DB :=
  match us with
  | [] => (.ok acc, db)
  | u :: rest =>
    match parseRequirements u.requirements with
    | .error e => (.error e, db)
    | .ok requirements =>
      if shouldGenerateFor updatedFields requirements then
        if hasSuggested db u.id then
          profileUpdateGo rest updatedFields db acc
        else
          match generateTasksForUniversity db u.id with
          | (.error e, db') => (.error e, db')
          | (.ok newTasks, db') =>
            profileUpdateGo rest updatedFields db' (acc ++ newTasks)
      else
        profileUpdateGo rest updatedFields db acc

/-- `TaskGenerator.generateTasksForProfileUpdate` (db.ts:1418-1451): no-op
when no profile row exists, otherwise the per-university loop. -/
def generateTasksForProfileUpdate (db : DB) (updatedFields : List String) :
    Except GenError (List Task) × DB :=
  match db.profile with
  | none => (.ok [], db)
  | some _ => profileUpdateGo db.universities updatedFields db []

/-- The flat score/count columns `UniversityService.create` receives and
derives the requirements mapping from (db.ts:1470-1493).  Descriptive
columns are elided. -/
structure UniversityInput where
  name : String
  deadlineEarly : Option ℤ := none
  deadlineRegular : Option ℤ := none
  satMin : Option ℚ := none
  satAvg : Option ℚ := none
  ieltsMin : Option ℚ := none
  ieltsAvg : Option ℚ := none
  toeflMin : Option ℚ := none
  recLettersRequired : Option ℕ := none
  essaysRequired : Option ℕ := none
  interviewRequired : Option ℕ := none
deriving DecidableEq, Repr

/-- The requirements object `UniversityService.create` builds from the flat
fields (db.ts:1475-1493), stored as its JSON string. -/
def buildRequirements (f : UniversityInput) : UniversityRequirements :=
  { sat :=
      if truthyQ f.satMin || truthyQ f.satAvg then
        some { required := true, minScore := f.satMin, avgScore := f.satAvg }
      else none,
    ielts :=
      if truthyQ f.ieltsMin || truthyQ f.ieltsAvg then
        some { required := true, minScore := jsOrQ f.ieltsMin f.ieltsAvg }
      else none,
    toefl :=
      if truthyQ f.toeflMin then
        some { required := true, minScore := f.toeflMin }
      else none,
    transcripts := none,
    recommendations :=
      if truthyN f.recLettersRequired then
        some { required := true, count := f.recLettersRequired }
      else none,
    essays :=
      if truthyN f.essaysRequired then
        some { required := true, count := f.essaysRequired }
      else none,
    interview :=
      if truthyN f.interviewRequired then some { required := true }
      else none }

/-- The row `UniversityService.create` inserts. -/
def insertedUniversity (f : UniversityInput) (id : ℕ) : University :=
  { id := id, name := f.name, deadlineEarly := f.deadlineEarly,
    deadlineRegular := f.deadlineRegular,
    requirements := .parsed (buildRequirements f) }

/-- `UniversityService.create` (db.ts:1470-1526): insert the row, read it
back by its new id, then auto-generate tasks inside `try { ... } catch`,
returning the read-back row no matter how generation ended. -/
def UniversityService.create (db : DB) (f : UniversityInput) :
    Option University × DB :=
  let newId := db.nextUniversityId
  let db1 : DB :=
    { db with
      universities := db.universities ++ [insertedUniversity f newId],
      nextUniversityId := newId + 1 }
  let newUni := UniversityService.getById db1 newId
  (newUni, (generateTasksForUniversity db1 newId).2)

/-- One entry of the readiness breakdown (db.ts:1277-1284). -/
structure ReadinessItem where
  name : String
  complete : Bool
  status : String
deriving DecidableEq, Repr

/-- The result shape of `ProfileService.getReadinessScore` (db.ts:1269). -/
structure Readiness where
  score : ℤ
  total : ℕ
  completed : ℕ
  items : List ReadinessItem
deriving DecidableEq, Repr

/-- The six-entry items list of `getReadinessScore` (db.ts:1277-1284). -/
def readinessItems (p : Profile) : List ReadinessItem :=
  [ { name := "SAT Score", complete := truthyQ p.satActual,
      status :=
        if truthyQ p.satActual then "Score: " ++ toString (p.satActual.getD 0)
        else "Missing" },
    { name := "IELTS/TOEFL",
      complete := truthyQ p.ieltsScore || truthyQ p.toeflScore,
      status :=
        if truthyQ p.ieltsScore then
          "IELTS: " ++ toString (p.ieltsScore.getD 0)
        else if truthyQ p.toeflScore then
          "TOEFL: " ++ toString (p.toeflScore.getD 0)
        else "Missing" },
    { name := "Transcripts",
      complete := decide (p.transcriptStatus = .received) ||
        decide (p.transcriptStatus = .submitted),
      status := p.transcriptStatus.toStr },
    { name := "Recommendations", complete := decide (0 < p.recommendationsCount),
      status := toString p.recommendationsCount ++ " received" },
    { name := "Personal Statement",
      complete := decide (p.statementStatus = .complete),
      status := p.statementStatus.toStr },
    { name := "Application Fee", complete := truthyQ p.feeBudget,
      status :=
        if truthyQ p.feeBudget then "Budget: $" ++ toString (p.feeBudget.getD 0)
        else "No budget set" } ]

/-- `ProfileService.getReadinessScore` (db.ts:1269-1290).  With no profile
row it returns the literal `{score: 0, total: 6, completed: 0, items: []}`;
the arithmetic `Math.round((completed / items.length) * 100)` is exact at
every reachable value (multiples of 100/6 are never half-integers), so the
rational rounding below agrees with the double-precision source. -/
def getReadinessScore (db : DB) : Readiness :=
  match db.profile with
  | none => { score := 0, total := 6, completed := 0, items := [] }
  | some profile =>
    let items := readinessItems profile
    let completed := (items.filter (fun i => i.complete)).length
    { score := jsRound (((completed : ℚ) / (items.length : ℚ)) * 100),
      total := items.length, completed := completed, items := items }

/-- The outcome record of the `UniversityDetail` requirement matcher. -/
structure MatchResult where
  status : String
  label : String
  percentage : Option ℚ := none
deriving DecidableEq, Repr

/-- `uniValue || 1` in the score-based partial branch (part_005:151). -/
def jsOr1 (v : Option ℚ) : ℚ :=
  if truthyQ v then v.getD 0 else 1

/-- `getRequirementStatus` (part_005:139-152): the pure requirement matcher
of the `UniversityDetail` component.  `userValue || 0` agrees with
`Option.getD 0` on every input. -/
def getRequirementStatus (uniValue userValue count : Option ℚ) : MatchResult :=
  if !truthyQ uniValue && !truthyQ count then
    { status := "not-required", label := "Not Required" }
  else
    match count with
    | some c =>
      let userCount := userValue.getD 0
      if userCount ≥ c then
        { status := "complete", label := "Complete", percentage := some 100 }
      else if userCount > 0 then
        { status := "partial", label := "Partial",
          percentage := some (userCount / c * 100) }
      else
        { status := "missing", label := "Missing", percentage := some 0 }
    | none =>
      if !truthyQ userValue then
        { status := "missing", label := "Missing", percentage := some 0 }
      else if truthyQ uniValue && decide (userValue.getD 0 ≥ uniValue.getD 0) then
        { status := "complete", label := "Meets Requirement",
          percentage := some 100 }
      else
        { status := "partial", label := "Below Target",
          percentage := some (userValue.getD 0 / jsOr1 uniValue * 100) }

/-- The `|| null` coercions `TaskService.create` applies to its argument
before inserting; `(TaskService.create db f).1.fields = coerceFields f`. -/
def coerceFields (f : TaskFields) : TaskFields :=
  { f with universityId := orNullNat f.universityId,
           description := orNullStr f.description,
           profileItemType := orNullStr f.profileItemType }

/-- No requirement dimension of the mapping is marked required (this also
holds for the empty mapping `{}` that an absent column parses to). -/
def noneRequired (r : UniversityRequirements) : Prop :=
  satReq r.sat = false ∧ minReq r.ielts = false ∧ minReq r.toefl = false ∧
    countReq r.transcripts = false ∧ countReq r.recommendations = false ∧
    countReq r.essays = false ∧ flagReq r.interview = false

/-- The six readiness dimensions in the wording of the specification (SAT
score present; IELTS or TOEFL present; transcripts received or submitted;
recommendationsCount > 0; statementStatus complete; feeBudget present), in
the fixed order.  Spec-side rendering, kept separate from `readinessItems`
so the two can be compared. -/
def specDimensions (p : Profile) : List Bool :=
  [ p.satActual.isSome,
    p.ieltsScore.isSome || p.toeflScore.isSome,
    decide (p.transcriptStatus = .received) ||
      decide (p.transcriptStatus = .submitted),
    decide (0 < p.recommendationsCount),
    decide (p.statementStatus = .complete),
    p.feeBudget.isSome ]

/-- Fixture: a university that only requires the SAT. -/
def exUniSat : University :=
  { id := 1, name := "U",
    requirements := .parsed { sat := some { required := true } } }

/-- Fixture: store with `exUniSat` and a default profile row. -/
def exDBSat : DB := { universities := [exUniSat], profile := some {} }

/-- Fixture: the SAT task generated for `exUniSat` from a default profile. -/
def exTaskSat : Task :=
  { id := 1, universityId := some 1, title := "Take SAT for U",
    description := some "U requires SAT. Schedule and take the test.",
    dueDate := none, status := "suggested", priority := "high",
    profileItemType := some "sat_actual" }

/-- Fixture: `exDBSat` after one generation pass. -/
def exDBSat1 : DB :=
  { universities := [exUniSat], profile := some {}, tasks := [exTaskSat],
    nextTaskId := 2 }

/-- Fixture: a university whose requirements column is present but not
parseable JSON. -/
def exDBMalformed : DB :=
  { universities := [{ id := 1, name := "M", requirements := .malformed }] }

/-- Fixture: a university whose early deadline (day 100) is later than its
regular deadline (day 50), with an interview required so a task is
generated. -/
def exUniBoth : University :=
  { id := 1, name := "V", deadlineEarly := some 100,
    deadlineRegular := some 50,
    requirements := .parsed { interview := some ⟨true⟩ } }

/-- Fixture: store with `exUniBoth` and a default profile row. -/
def exDBBothDeadlines : DB :=
  { universities := [exUniBoth], profile := some {} }

/-- Fixture: the interview task generated for `exUniBoth`. -/
def exTaskInterview : Task :=
  { id := 1, universityId := some 1, title := "Prepare for interview at V",
    description := some
      "V requires an interview. Research common questions and practice your responses.",
    dueDate := some 70, status := "suggested", priority := "medium",
    profileItemType := none }

/-- Fixture: `exDBBothDeadlines` after one generation pass. -/
def exDBBoth1 : DB :=
  { universities := [exUniBoth], profile := some {},
    tasks := [exTaskInterview], nextTaskId := 2 }

/-- Fixture: a university with no requirements column at all. -/
def exUniNoReq : University := { id := 1, name := "N" }

/-- Fixture: store with `exUniNoReq` only. -/
def exDBNoReq : DB := { universities := [exUniNoReq] }

/-- Fixture: store holding only a default profile row. -/
def exDBProfile : DB := { profile := some {} }

/-! ## Helper lemmas -/

theorem create_fst_fields (db : DB) (f : TaskFields) :
    (TaskService.create db f).1.fields = coerceFields f := rfl

theorem createAll_snd (db : DB) (fs : List TaskFields) :
    (createAll db fs).2 =
      { db with tasks := db.tasks ++ (createAll db fs).1,
                nextTaskId := db.nextTaskId + fs.length } := by
  induction fs generalizing db with
  | nil => simp [createAll]
  | cons f rest ih =>
    simp only [createAll, TaskService.create, ih, List.length_cons]
    congr 1
    · simp
    · omega

theorem createAll_fst_map (db : DB) (fs : List TaskFields) :
    (createAll db fs).1.map Task.fields = fs.map coerceFields := by
  induction fs generalizing db with
  | nil => rfl
  | cons f rest ih => simp [createAll, ih, create_fst_fields]

theorem createAll_length (db : DB) (fs : List TaskFields) :
    (createAll db fs).1.length = fs.length := by
  have h := congrArg List.length (createAll_fst_map db fs)
  simpa using h

theorem createAll_mem (db : DB) (fs : List TaskFields) {t : Task}
    (ht : t ∈ (createAll db fs).1) : ∃ f ∈ fs, t.fields = coerceFields f := by
  have : t.fields ∈ (createAll db fs).1.map Task.fields := List.mem_map_of_mem _ ht
  rw [createAll_fst_map] at this
  obtain ⟨f, hf, hef⟩ := List.mem_map.1 this
  exact ⟨f, hf, hef.symm⟩

theorem fields_eq_coerce {t : Task} {f : TaskFields}
    (h : t.fields = coerceFields f) :
    t.universityId = orNullNat f.universityId ∧ t.title = f.title ∧
      t.description = orNullStr f.description ∧ t.dueDate = f.dueDate ∧
      t.status = f.status ∧ t.priority = f.priority ∧
      t.profileItemType = orNullStr f.profileItemType := by
  cases t
  simp only [Task.fields, coerceFields, TaskFields.mk.injEq] at h
  obtain ⟨h1, h2, h3, h4, h5, h6, h7⟩ := h
  exact ⟨h1, h2, h3, h4, h5, h6, h7⟩

theorem getOrCreateProfile_snd (db : DB) :
    (getOrCreateProfile db).2 =
      { db with profile := some (getOrCreateProfile db).1 } := by
  unfold getOrCreateProfile
  cases hp : db.profile
  · rfl
  · next p =>
    simp only
    cases db
    simp_all

theorem satPlan_props {u : University} {p : Profile}
    {r : UniversityRequirements} {d : Option ℤ} {f : TaskFields}
    (hf : f ∈ satPlan u p r d) :
    f.status = "suggested" ∧ f.universityId = some u.id ∧ f.dueDate = d ∧
      f.priority = "high" ∧ f.profileItemType = some "sat_actual" ∧
      satReq r.sat = true := by
  unfold satPlan at hf
  split at hf
  · simp at hf
  · next s hs =>
    split at hf
    · next hc =>
      simp only [List.mem_singleton] at hf
      subst hf
      refine ⟨rfl, rfl, rfl, rfl, rfl, ?_⟩
      simp only [Bool.and_eq_true] at hc
      simp [satReq, hs, hc.1]
    · split at hf
      · next hc =>
        simp only [List.mem_singleton] at hf
        subst hf
        refine ⟨rfl, rfl, rfl, rfl, rfl, ?_⟩
        simp only [Bool.and_eq_true] at hc
        simp [satReq, hs, hc.1.1.1]
      · simp at hf

theorem englishPlan_props {u : University} {p : Profile}
    {r : UniversityRequirements} {d : Option ℤ} {f : TaskFields}
    (hf : f ∈ englishPlan u p r d) :
    f.status = "suggested" ∧ f.universityId = some u.id ∧ f.dueDate = d ∧
      f.priority = "high" ∧ f.profileItemType = some "toeflScore" ∧
      (minReq r.ielts || minReq r.toefl) = true := by
  unfold englishPlan at hf
  split at hf
  · next hc =>
    simp only [List.mem_singleton] at hf
    subst hf
    simp only [Bool.and_eq_true, Bool.not_eq_true', Bool.or_eq_false_iff] at hc
    refine ⟨rfl, rfl, rfl, rfl, ?_, by simp [hc.1]⟩
    simp [hc.2.1]
  · simp at hf

theorem transcriptsPlan_props {u : University} {p : Profile}
    {r : UniversityRequirements} {d : Option ℤ} {f : TaskFields}
    (hf : f ∈ transcriptsPlan u p r d) :
    f.status = "suggested" ∧ f.universityId = some u.id ∧ f.dueDate = d ∧
      f.priority = "high" ∧ f.profileItemType = some "transcriptStatus" ∧
      countReq r.transcripts = true := by
  unfold transcriptsPlan at hf
  split at hf
  · next hc =>
    simp only [List.mem_singleton] at hf
    subst hf
    simp only [Bool.and_eq_true] at hc
    exact ⟨rfl, rfl, rfl, rfl, rfl, hc.1⟩
  · simp at hf

theorem recsPlan_props {u : University} {p : Profile}
    {r : UniversityRequirements} {d : Option ℤ} {f : TaskFields}
    (hf : f ∈ recsPlan u p r d) :
    f.status = "suggested" ∧ f.universityId = some u.id ∧ f.dueDate = d ∧
      f.priority = "high" ∧ f.profileItemType = some "recommendationsCount" ∧
      countReq r.recommendations = true := by
  unfold recsPlan at hf
  split at hf
  · simp at hf
  · next rec hrec =>
    split at hf
    · next hc =>
      simp only [List.mem_singleton] at hf
      subst hf
      simp only [Bool.and_eq_true] at hc
      exact ⟨rfl, rfl, rfl, rfl, rfl, by simp [countReq, hrec, hc.1]⟩
    · simp at hf

theorem essaysPlan_props {u : University} {p : Profile}
    {r : UniversityRequirements} {d : Option ℤ} {f : TaskFields}
    (hf : f ∈ essaysPlan u p r d) :
    f.status = "suggested" ∧ f.universityId = some u.id ∧ f.dueDate = d ∧
      f.priority = "medium" ∧ f.profileItemType = some "statementStatus" ∧
      countReq r.essays = true := by
  unfold essaysPlan at hf
  split at hf
  · simp at hf
  · next e he =>
    split at hf
    · next hc =>
      simp only [List.mem_singleton] at hf
      subst hf
      simp only [Bool.and_eq_true] at hc
      exact ⟨rfl, rfl, rfl, rfl, rfl, by simp [countReq, he, hc.1]⟩
    · simp at hf

theorem interviewPlan_props {u : University} {r : UniversityRequirements}
    {d : Option ℤ} {f : TaskFields} (hf : f ∈ interviewPlan u r d) :
    f.status = "suggested" ∧ f.universityId = some u.id ∧ f.dueDate = d ∧
      f.priority = "medium" ∧ f.profileItemType = none ∧
      flagReq r.interview = true := by
  unfold interviewPlan at hf
  split at hf
  · next hc =>
    simp only [List.mem_singleton] at hf
    subst hf
    exact ⟨rfl, rfl, rfl, rfl, rfl, hc⟩
  · simp at hf

theorem taskPlans_props {u : University} {p : Profile}
    {r : UniversityRequirements} {d : Option ℤ} {f : TaskFields}
    (hf : f ∈ taskPlans u p r d) :
    f.status = "suggested" ∧ f.universityId = some u.id ∧ f.dueDate = d ∧
      (f.priority = "high" ∨ f.priority = "medium") := by
  simp only [taskPlans, List.mem_append] at hf
  rcases hf with ((((hf | hf) | hf) | hf) | hf) | hf
  · obtain ⟨h1, h2, h3, h4, _⟩ := satPlan_props hf
    exact ⟨h1, h2, h3, Or.inl h4⟩
  · obtain ⟨h1, h2, h3, h4, _⟩ := englishPlan_props hf
    exact ⟨h1, h2, h3, Or.inl h4⟩
  · obtain ⟨h1, h2, h3, h4, _⟩ := transcriptsPlan_props hf
    exact ⟨h1, h2, h3, Or.inl h4⟩
  · obtain ⟨h1, h2, h3, h4, _⟩ := recsPlan_props hf
    exact ⟨h1, h2, h3, Or.inl h4⟩
  · obtain ⟨h1, h2, h3, h4, _⟩ := essaysPlan_props hf
    exact ⟨h1, h2, h3, Or.inr h4⟩
  · obtain ⟨h1, h2, h3, h4, _⟩ := interviewPlan_props hf
    exact ⟨h1, h2, h3, Or.inr h4⟩

theorem find?_id {db : DB} {uid : ℕ} {u : University}
    (hu : UniversityService.getById db uid = some u) : u.id = uid := by
  unfold UniversityService.getById at hu
  have := List.find?_some hu
  simpa using this

theorem generate_ok_of (db : DB) (uid : ℕ) {u : University}
    {r : UniversityRequirements}
    (hu : UniversityService.getById db uid = some u)
    (hr : parseRequirements u.requirements = .ok r) :
    generateTasksForUniversity db uid =
      (.ok (createAll (getOrCreateProfile db).2
          (taskPlans u (getOrCreateProfile db).1 r (dueDateOf u))).1,
        (createAll (getOrCreateProfile db).2
          (taskPlans u (getOrCreateProfile db).1 r (dueDateOf u))).2) := by
  simp only [generateTasksForUniversity, hu, hr]

theorem generate_ok_elim {db : DB} {uid : ℕ} {ts : List Task} {db' : DB}
    (h : generateTasksForUniversity db uid = (.ok ts, db')) :
    ∃ u r, UniversityService.getById db uid = some u ∧
      parseRequirements u.requirements = .ok r ∧
      ts = (createAll (getOrCreateProfile db).2
        (taskPlans u (getOrCreateProfile db).1 r (dueDateOf u))).1 ∧
      db' = (createAll (getOrCreateProfile db).2
        (taskPlans u (getOrCreateProfile db).1 r (dueDateOf u))).2 := by
  unfold generateTasksForUniversity at h
  split at h
  · exact absurd (congrArg Prod.fst h) (by simp)
  · next u hu =>
    split at h
    · exact absurd (congrArg Prod.fst h) (by simp)
    · next r hr =>
      have h1 := congrArg Prod.fst h
      have h2 := congrArg Prod.snd h
      simp only at h1 h2
      exact ⟨u, r, hu, hr, by simpa using h1.symm, h2.symm⟩

theorem generate_ok_state {db : DB} {uid : ℕ} {ts : List Task} {db' : DB}
    (h : generateTasksForUniversity db uid = (.ok ts, db')) :
    db'.tasks = db.tasks ++ ts ∧ db'.universities = db.universities ∧
      db'.profile = some (getOrCreateProfile db).1 ∧
      ∀ t ∈ ts, t.status = "suggested" ∧
        (t.universityId = none ∨ t.universityId = some uid) := by
  obtain ⟨u, r, hu, hr, hts, hdb⟩ := generate_ok_elim h
  have hcs := createAll_snd (getOrCreateProfile db).2
    (taskPlans u (getOrCreateProfile db).1 r (dueDateOf u))
  have hgp := getOrCreateProfile_snd db
  subst hts hdb
  rw [hcs, hgp]
  refine ⟨rfl, rfl, rfl, ?_⟩
  intro t ht
  obtain ⟨f, hf, hef⟩ := createAll_mem _ _ ht
  obtain ⟨hid, _, _, _, hst, _, _⟩ := fields_eq_coerce hef
  obtain ⟨h1, h2, _, _⟩ := taskPlans_props hf
  refine ⟨by rw [hst, h1], ?_⟩
  rw [hid, h2, find?_id hu]
  by_cases h0 : uid = 0
  · exact Or.inl (by simp [orNullNat, h0])
  · exact Or.inr (by simp [orNullNat, h0])

theorem satPlan_eq_nil {u : University} {p : Profile}
    {r : UniversityRequirements} {d : Option ℤ} (h : satReq r.sat = false) :
    satPlan u p r d = [] := by
  unfold satPlan
  cases hs : r.sat
  · rfl
  · next s =>
    simp only [satReq, hs] at h
    simp [h]

theorem englishPlan_eq_nil {u : University} {p : Profile}
    {r : UniversityRequirements} {d : Option ℤ} (h1 : minReq r.ielts = false)
    (h2 : minReq r.toefl = false) : englishPlan u p r d = [] := by
  unfold englishPlan
  simp [h1, h2]

theorem transcriptsPlan_eq_nil {u : University} {p : Profile}
    {r : UniversityRequirements} {d : Option ℤ}
    (h : countReq r.transcripts = false) : transcriptsPlan u p r d = [] := by
  unfold transcriptsPlan
  simp [h]

theorem recsPlan_eq_nil {u : University} {p : Profile}
    {r : UniversityRequirements} {d : Option ℤ}
    (h : countReq r.recommendations = false) : recsPlan u p r d = [] := by
  unfold recsPlan
  cases hs : r.recommendations
  · rfl
  · next rec =>
    simp only [countReq, hs] at h
    simp [h]

theorem essaysPlan_eq_nil {u : University} {p : Profile}
    {r : UniversityRequirements} {d : Option ℤ}
    (h : countReq r.essays = false) : essaysPlan u p r d = [] := by
  unfold essaysPlan
  cases hs : r.essays
  · rfl
  · next e =>
    simp only [countReq, hs] at h
    simp [h]

theorem interviewPlan_eq_nil {u : University} {r : UniversityRequirements}
    {d : Option ℤ} (h : flagReq r.interview = false) :
    interviewPlan u r d = [] := by
  unfold interviewPlan
  simp [h]

theorem taskPlans_eq_nil {u : University} {p : Profile}
    {r : UniversityRequirements} {d : Option ℤ} (h : noneRequired r) :
    taskPlans u p r d = [] := by
  obtain ⟨h1, h2, h3, h4, h5, h6, h7⟩ := h
  unfold taskPlans
  rw [satPlan_eq_nil h1, englishPlan_eq_nil h2 h3, transcriptsPlan_eq_nil h4,
    recsPlan_eq_nil h5, essaysPlan_eq_nil h6, interviewPlan_eq_nil h7]
  rfl

theorem hasSuggested_of_mem {db : DB} {uid : ℕ} {t : Task} (ht : t ∈ db.tasks)
    (hu : t.universityId = some uid) (hs : t.status = "suggested") :
    hasSuggested db uid = true := by
  unfold hasSuggested TaskService.getByUniversity
  rw [List.any_eq_true]
  exact ⟨t, List.mem_filter.2 ⟨ht, by simp [hu]⟩, by simp [hs]⟩

theorem hasSuggested_append {db db' : DB} {uid : ℕ} {ts : List Task}
    (h : db'.tasks = db.tasks ++ ts) (hs : hasSuggested db uid = true) :
    hasSuggested db' uid = true := by
  unfold hasSuggested TaskService.getByUniversity at *
  rw [h, List.filter_append, List.any_append, hs]
  rfl

theorem go_no_new_for (uid : ℕ) (us : List University) :
    ∀ (fields : List String) (db : DB) (acc ts : List Task) (db2 : DB),
      hasSuggested db uid = true →
      (∀ t ∈ acc, t.universityId ≠ some uid) →
      profileUpdateGo us fields db acc = (.ok ts, db2) →
      ∀ t ∈ ts, t.universityId ≠ some uid := by
  induction us with
  | nil =>
    intro fields db acc ts db2 _ hacc h
    unfold profileUpdateGo at h
    have h1 := congrArg Prod.fst h
    have h2 := congrArg Prod.snd h
    simp only at h1 h2
    have : acc = ts := by simpa using h1
    exact this ▸ hacc
  | cons u rest ih =>
    intro fields db acc ts db2 hsug hacc h
    unfold profileUpdateGo at h
    split at h
    · exact absurd (congrArg Prod.fst h) (by simp)
    · next r hr =>
      split at h
      · split at h
        · exact ih fields db acc ts db2 hsug hacc h
        · next hguard =>
          split at h
          · exact absurd (congrArg Prod.fst h) (by simp)
          · next newTasks db' hgen =>
            have hne : u.id ≠ uid := by
              intro he
              rw [he] at hguard
              exact hguard hsug
            obtain ⟨htasks, _, _, hmem⟩ := generate_ok_state hgen
            refine ih fields db' (acc ++ newTasks) ts db2
              (hasSuggested_append htasks hsug) ?_ h
            intro t ht
            rcases List.mem_append.1 ht with ht | ht
            · exact hacc t ht
            · rcases (hmem t ht).2 with hid | hid
              · rw [hid]
                exact (Option.some_ne_none uid).symm
              · rw [hid]
                intro hx
                exact hne (Option.some.inj hx)
      · exact ih fields db acc ts db2 hsug hacc h

theorem generate_ok_nil {db : DB} {uid : ℕ} {u : University}
    {r : UniversityRequirements}
    (hu : UniversityService.getById db uid = some u)
    (hr : parseRequirements u.requirements = .ok r)
    (hnone : noneRequired r) :
    (generateTasksForUniversity db uid).1 = .ok [] ∧
      (generateTasksForUniversity db uid).2.tasks = db.tasks := by
  rw [generate_ok_of db uid hu hr, taskPlans_eq_nil hnone]
  exact ⟨rfl, by rw [show createAll (getOrCreateProfile db).2 ([] : List TaskFields) =
    ([], (getOrCreateProfile db).2) from rfl, getOrCreateProfile_snd]⟩

theorem find?_append_singleton {l : List University} {v : University}
    {uid : ℕ} (h : ∀ u ∈ l, u.id ≠ uid) (hv : v.id = uid) :
    List.find? (fun u => u.id == uid) (l ++ [v]) = some v := by
  rw [List.find?_append]
  have hnone : List.find? (fun u => u.id == uid) l = none := by
    rw [List.find?_eq_none]
    intro u hu
    simp [h u hu]
  rw [hnone]
  simp [List.find?, hv]

theorem truthyQ_eq_isSome {v : Option ℚ} (h : v ≠ some 0) :
    truthyQ v = v.isSome := by
  cases v with
  | none => rfl
  | some x =>
    have hx : x ≠ 0 := fun hx0 => h (by rw [hx0])
    simp [truthyQ, hx]

theorem length_filter_eq_count (l : List ReadinessItem) :
    (l.filter (fun i => i.complete)).length =
      (l.map (fun i => i.complete)).count true := by
  induction l with
  | nil => rfl
  | cons hd tl ih =>
    cases hc : hd.complete <;>
      simp [List.filter_cons, hc, List.count_cons, ih]

theorem satPlan_length_le (u : University) (p : Profile)
    (r : UniversityRequirements) (d : Option ℤ) :
    (satPlan u p r d).length ≤ 1 := by
  unfold satPlan
  split
  · simp
  · split
    · simp
    · split <;> simp

theorem englishPlan_length_le (u : University) (p : Profile)
    (r : UniversityRequirements) (d : Option ℤ) :
    (englishPlan u p r d).length ≤ 1 := by
  unfold englishPlan
  split <;> simp

theorem transcriptsPlan_length_le (u : University) (p : Profile)
    (r : UniversityRequirements) (d : Option ℤ) :
    (transcriptsPlan u p r d).length ≤ 1 := by
  unfold transcriptsPlan
  split <;> simp

theorem recsPlan_length_le (u : University) (p : Profile)
    (r : UniversityRequirements) (d : Option ℤ) :
    (recsPlan u p r d).length ≤ 1 := by
  unfold recsPlan
  split
  · simp
  · split <;> simp

theorem essaysPlan_length_le (u : University) (p : Profile)
    (r : UniversityRequirements) (d : Option ℤ) :
    (essaysPlan u p r d).length ≤ 1 := by
  unfold essaysPlan
  split
  · simp
  · split <;> simp

theorem interviewPlan_length_le (u : University)
    (r : UniversityRequirements) (d : Option ℤ) :
    (interviewPlan u r d).length ≤ 1 := by
  unfold interviewPlan
  split <;> simp

theorem taskPlans_length_le (u : University) (p : Profile)
    (r : UniversityRequirements) (d : Option ℤ) :
    (taskPlans u p r d).length ≤ 6 := by
  have h1 := satPlan_length_le u p r d
  have h2 := englishPlan_length_le u p r d
  have h3 := transcriptsPlan_length_le u p r d
  have h4 := recsPlan_length_le u p r d
  have h5 := essaysPlan_length_le u p r d
  have h6 := interviewPlan_length_le u r d
  simp only [taskPlans, List.length_append]
  omega

/-! ## Claims -/

/-- C1, counterexample: for a university whose requirements column is
present but not parseable (`exDBMalformed`), `generateTasksForUniversity`
does NOT complete without error treating the mapping as empty (which would
return `.ok []`): the `JSON.parse` failure escapes as an error. -/
theorem c1_counterexample :
    (generateTasksForUniversity exDBMalformed 1).1 = .error .parseError ∧
      (generateTasksForUniversity exDBMalformed 1).1 ≠
        .ok ([] : List Task) := by
  constructor
  · rfl
  · intro h
    rw [show (generateTasksForUniversity exDBMalformed 1).1 =
      Except.error GenError.parseError from rfl] at h
    exact Except.noConfusion h

/-- C1, amended: only an absent (falsy) requirements column is treated as
the empty mapping, in which case the call completes with no tasks; a
present-but-unparseable column makes `generateTasksForUniversity` fail with
the parse error, which propagates to the caller. -/
theorem c1_amended_parse_error_propagates (db : DB) (uid : ℕ)
    {u : University} (hu : UniversityService.getById db uid = some u) :
    (u.requirements = .absent →
      (generateTasksForUniversity db uid).1 = .ok [] ∧
        (generateTasksForUniversity db uid).2.tasks = db.tasks) ∧
    (u.requirements = .malformed →
      (generateTasksForUniversity db uid).1 = .error .parseError) := by
  constructor
  · intro ha
    have hr : parseRequirements u.requirements = .ok {} := by rw [ha]; rfl
    exact generate_ok_nil hu hr ⟨rfl, rfl, rfl, rfl, rfl, rfl, rfl⟩
  · intro hm
    simp [generateTasksForUniversity, hu, hm, parseRequirements]

/-- C1, witness for the amended theorem at `exDBMalformed`. -/
theorem c1_amended_witness :
    UniversityService.getById exDBMalformed 1 =
      some { id := 1, name := "M", requirements := .malformed } ∧
    (({ id := 1, name := "M", requirements := .malformed } :
        University).requirements = .malformed →
      (generateTasksForUniversity exDBMalformed 1).1 =
        .error .parseError) :=
  ⟨rfl, (c1_amended_parse_error_propagates exDBMalformed 1 rfl).2⟩

/-- C2, counterexample: `exUniBoth` has `deadlineEarly = day 100` and
`deadlineRegular = day 50`; the earliest present deadline minus 30 is day
20, but the generated task's due date is day 70 (the code prefers
`deadlineEarly` regardless of order). -/
theorem c2_counterexample :
    Except.map (List.map Task.dueDate)
        (generateTasksForUniversity exDBBothDeadlines 1).1 =
      .ok [some 70] ∧
    min (100 : ℤ) 50 - 30 = 20 ∧ (some (70 : ℤ) ≠ some (20 : ℤ)) := by
  refine ⟨rfl, by norm_num, by simp⟩

/-- C2, amended: every generated task's due date is
`(deadlineEarly || deadlineRegular) - 30` — the early deadline takes
precedence whenever present, even if the regular deadline is earlier — and
with neither deadline present no due date is set. -/
theorem c2_amended_due_date (db : DB) (uid : ℕ) {u : University}
    {ts : List Task} {db' : DB}
    (hu : UniversityService.getById db uid = some u)
    (h : generateTasksForUniversity db uid = (.ok ts, db')) :
    (∀ t ∈ ts, t.dueDate = dueDateOf u) ∧
    (∀ e, u.deadlineEarly = some e → dueDateOf u = some (e - 30)) ∧
    (u.deadlineEarly = none →
      (∀ d, u.deadlineRegular = some d → dueDateOf u = some (d - 30)) ∧
      (u.deadlineRegular = none → dueDateOf u = none)) := by
  obtain ⟨u', r, hu', hr, hts, _⟩ := generate_ok_elim h
  have heq : u' = u := Option.some.inj (hu'.symm.trans hu)
  subst heq
  refine ⟨?_, ?_, ?_⟩
  · intro t ht
    rw [hts] at ht
    obtain ⟨f, hf, hef⟩ := createAll_mem _ _ ht
    obtain ⟨_, _, _, hd, _, _, _⟩ := fields_eq_coerce hef
    obtain ⟨_, _, hfd, _⟩ := taskPlans_props hf
    rw [hd, hfd]
  · intro e he
    unfold dueDateOf
    rw [he]
  · intro hne
    constructor
    · intro d hd
      unfold dueDateOf
      rw [hne, hd]
    · intro hrd
      unfold dueDateOf
      rw [hne, hrd]

/-- C2, witness for the amended theorem at `exDBBothDeadlines`. -/
theorem c2_amended_witness :
    UniversityService.getById exDBBothDeadlines 1 = some exUniBoth ∧
    generateTasksForUniversity exDBBothDeadlines 1 =
      (.ok [exTaskInterview], exDBBoth1) ∧
    ((∀ t ∈ [exTaskInterview], t.dueDate = dueDateOf exUniBoth) ∧
      (∀ e, exUniBoth.deadlineEarly = some e →
        dueDateOf exUniBoth = some (e - 30)) ∧
      (exUniBoth.deadlineEarly = none →
        (∀ d, exUniBoth.deadlineRegular = some d →
          dueDateOf exUniBoth = some (d - 30)) ∧
        (exUniBoth.deadlineRegular = none → dueDateOf exUniBoth = none))) :=
  ⟨rfl, rfl, c2_amended_due_date exDBBothDeadlines 1 rfl rfl⟩

/-- C6 (confirmed): for a university none of whose requirement dimensions
are marked required — which includes an absent requirements column, since
it parses to the empty mapping — `generateTasksForUniversity` returns the
empty list and leaves the task store unchanged. -/
theorem c6_no_required_no_tasks (db : DB) (uid : ℕ) {u : University}
    {r : UniversityRequirements}
    (hu : UniversityService.getById db uid = some u)
    (hr : parseRequirements u.requirements = .ok r)
    (hnone : noneRequired r) :
    (generateTasksForUniversity db uid).1 = .ok [] ∧
      (generateTasksForUniversity db uid).2.tasks = db.tasks :=
  generate_ok_nil hu hr hnone

/-- C6, witness at `exDBNoReq` (absent requirements column). -/
theorem c6_witness :
    UniversityService.getById exDBNoReq 1 = some exUniNoReq ∧
    parseRequirements exUniNoReq.requirements = .ok {} ∧
    noneRequired {} ∧
    ((generateTasksForUniversity exDBNoReq 1).1 = .ok [] ∧
      (generateTasksForUniversity exDBNoReq 1).2.tasks = exDBNoReq.tasks) :=
  ⟨rfl, rfl, ⟨rfl, rfl, rfl, rfl, rfl, rfl, rfl⟩,
    c6_no_required_no_tasks exDBNoReq 1 rfl rfl
      ⟨rfl, rfl, rfl, rfl, rfl, rfl, rfl⟩⟩

/-- C7 (confirmed): `generateTasksForUniversity` fails with `NotFound`
exactly when no university with the given id exists; and
`UniversityService.create` always returns the row it inserted (the
generation side effect runs inside `try`/`catch`, so its outcome cannot
change the first component). -/
theorem c7_notfound_and_create_returns (db : DB) (uid : ℕ)
    (f : UniversityInput)
    (hfresh : ∀ u ∈ db.universities, u.id ≠ db.nextUniversityId) :
    ((generateTasksForUniversity db uid).1 = .error .notFound ↔
      UniversityService.getById db uid = none) ∧
    (UniversityService.create db f).1 =
      some (insertedUniversity f db.nextUniversityId) := by
  constructor
  · constructor
    · intro h
      cases hu : UniversityService.getById db uid with
      | none => rfl
      | some u =>
        exfalso
        cases hreq : u.requirements <;>
          simp [generateTasksForUniversity, hu, hreq, parseRequirements] at h
    · intro hu
      simp [generateTasksForUniversity, hu]
  · unfold UniversityService.create UniversityService.getById
    simp only
    exact find?_append_singleton hfresh rfl

/-- C7, witness at an empty store. -/
theorem c7_witness :
    (∀ u ∈ ({} : DB).universities, u.id ≠ ({} : DB).nextUniversityId) ∧
    (((generateTasksForUniversity {} 1).1 = .error .notFound ↔
        UniversityService.getById {} 1 = none) ∧
      (UniversityService.create {} { name := "W" }).1 =
        some (insertedUniversity { name := "W" } ({} : DB).nextUniversityId)) :=
  ⟨fun u hu => absurd hu (List.not_mem_nil u),
    c7_notfound_and_create_returns {} 1 { name := "W" }
      (fun u hu => absurd hu (List.not_mem_nil u))⟩

/-- C3 (confirmed): after a first `generateTasksForProfileUpdate` call, a
second call with the same changed fields creates no task for any university
that still has an outstanding `suggested` task: the per-university guard
suppresses all regeneration for that university. -/
theorem c3_profile_update_guard (db : DB) (fields : List String) (uid : ℕ)
    {ts1 ts2 : List Task} {db1 db2 : DB}
    (h1 : generateTasksForProfileUpdate db fields = (.ok ts1, db1))
    (hsug : ∃ t ∈ db1.tasks, t.universityId = some uid ∧
      t.status = "suggested")
    (h2 : generateTasksForProfileUpdate db1 fields = (.ok ts2, db2)) :
    ∀ t ∈ ts2, t.universityId ≠ some uid := by
  obtain ⟨t0, ht0, hid0, hst0⟩ := hsug
  have hs : hasSuggested db1 uid = true := hasSuggested_of_mem ht0 hid0 hst0
  unfold generateTasksForProfileUpdate at h2
  split at h2
  · have hnil : ([] : List Task) = ts2 := by
      simpa using congrArg Prod.fst h2
    rw [← hnil]
    intro t ht
    exact absurd ht (List.not_mem_nil t)
  · exact go_no_new_for uid db1.universities fields db1 [] ts2 db2 hs
      (fun t ht => absurd ht (List.not_mem_nil t)) h2

/-- C3, witness: a first call on `exDBSat` creates the SAT suggestion, and
the identical second call creates nothing. -/
theorem c3_witness :
    generateTasksForProfileUpdate exDBSat ["satActual"] =
      (.ok [exTaskSat], exDBSat1) ∧
    (∃ t ∈ exDBSat1.tasks, t.universityId = some 1 ∧
      t.status = "suggested") ∧
    generateTasksForProfileUpdate exDBSat1 ["satActual"] =
      (.ok [], exDBSat1) ∧
    ∀ t ∈ ([] : List Task), t.universityId ≠ some 1 :=
  ⟨rfl, ⟨exTaskSat, List.mem_singleton.2 rfl, rfl, rfl⟩, rfl,
    c3_profile_update_guard exDBSat ["satActual"] 1 rfl
      ⟨exTaskSat, List.mem_singleton.2 rfl, rfl, rfl⟩ rfl⟩

/-- C8 (confirmed): `generateTasksForUniversity` never inspects existing
tasks, so calling it twice in a row duplicates the batch: the second call
creates tasks identical to the first batch up to their auto-increment ids,
and appends them to the store. -/
theorem c8_repeat_duplicates (db : DB) (uid : ℕ) {ts1 : List Task}
    {db1 : DB} (h1 : generateTasksForUniversity db uid = (.ok ts1, db1))
    (hne : ts1 ≠ []) :
    ∃ ts2 db2, generateTasksForUniversity db1 uid = (.ok ts2, db2) ∧
      ts2 ≠ [] ∧ ts2.map Task.fields = ts1.map Task.fields ∧
      db2.tasks = db1.tasks ++ ts2 ∧
      ∀ t ∈ ts2, t.status = "suggested" := by
  obtain ⟨u, r, hu, hr, hts, hdb⟩ := generate_ok_elim h1
  obtain ⟨hT, hU, hP, _⟩ := generate_ok_state h1
  have hu1 : UniversityService.getById db1 uid = some u := by
    unfold UniversityService.getById at *
    rw [hU]
    exact hu
  have hp1 : getOrCreateProfile db1 = ((getOrCreateProfile db).1, db1) := by
    unfold getOrCreateProfile
    rw [hP]
    rfl
  have hgen2 := generate_ok_of db1 uid hu1 hr
  rw [hp1] at hgen2
  simp only at hgen2
  refine ⟨_, _, hgen2, ?_, ?_, ?_, ?_⟩
  · intro hnil
    have hlen2 := createAll_length db1
      (taskPlans u (getOrCreateProfile db).1 r (dueDateOf u))
    have hlen1 := createAll_length (getOrCreateProfile db).2
      (taskPlans u (getOrCreateProfile db).1 r (dueDateOf u))
    rw [hnil] at hlen2
    apply hne
    rw [hts]
    apply List.eq_nil_of_length_eq_zero
    rw [hlen1, ← hlen2]
    rfl
  · rw [hts, createAll_fst_map, createAll_fst_map]
  · rw [(createAll_snd db1 _ : _)]
  · intro t ht
    obtain ⟨f, hf, hef⟩ := createAll_mem _ _ ht
    obtain ⟨_, _, _, _, hst, _, _⟩ := fields_eq_coerce hef
    obtain ⟨h1', _, _, _⟩ := taskPlans_props hf
    rw [hst, h1']

/-- C8, witness: the second direct call on `exDBSat1` duplicates the SAT
suggestion batch. -/
theorem c8_witness :
    generateTasksForUniversity exDBSat 1 = (.ok [exTaskSat], exDBSat1) ∧
    [exTaskSat] ≠ ([] : List Task) ∧
    ∃ ts2 db2, generateTasksForUniversity exDBSat1 1 = (.ok ts2, db2) ∧
      ts2 ≠ [] ∧ ts2.map Task.fields = [exTaskSat].map Task.fields ∧
      db2.tasks = exDBSat1.tasks ++ ts2 ∧
      ∀ t ∈ ts2, t.status = "suggested" :=
  ⟨rfl, by simp,
    c8_repeat_duplicates exDBSat 1 rfl (by simp)⟩

/-- C10 (confirmed): one `generateTasksForUniversity` call creates at most
six tasks — the batch splits into the six rule groups, each contributing at
most one task — and every created task is `suggested`, has priority high or
medium, and carries the id the operation was called with. -/
theorem c10_batch_invariants (db : DB) (uid : ℕ) {u : University}
    {r : UniversityRequirements} {ts : List Task} {db' : DB}
    (hu : UniversityService.getById db uid = some u)
    (hr : parseRequirements u.requirements = .ok r)
    (h : generateTasksForUniversity db uid = (.ok ts, db'))
    (h0 : uid ≠ 0) :
    ts.length ≤ 6 ∧
    (∀ t ∈ ts, t.status = "suggested" ∧
      (t.priority = "high" ∨ t.priority = "medium") ∧
      t.universityId = some uid) ∧
    ts.map Task.fields =
      (satPlan u (getOrCreateProfile db).1 r (dueDateOf u)).map coerceFields
        ++ (englishPlan u (getOrCreateProfile db).1 r
            (dueDateOf u)).map coerceFields
        ++ (transcriptsPlan u (getOrCreateProfile db).1 r
            (dueDateOf u)).map coerceFields
        ++ (recsPlan u (getOrCreateProfile db).1 r
            (dueDateOf u)).map coerceFields
        ++ (essaysPlan u (getOrCreateProfile db).1 r
            (dueDateOf u)).map coerceFields
        ++ (interviewPlan u r (dueDateOf u)).map coerceFields ∧
    (satPlan u (getOrCreateProfile db).1 r (dueDateOf u)).length ≤ 1 ∧
    (englishPlan u (getOrCreateProfile db).1 r (dueDateOf u)).length ≤ 1 ∧
    (transcriptsPlan u (getOrCreateProfile db).1 r
      (dueDateOf u)).length ≤ 1 ∧
    (recsPlan u (getOrCreateProfile db).1 r (dueDateOf u)).length ≤ 1 ∧
    (essaysPlan u (getOrCreateProfile db).1 r (dueDateOf u)).length ≤ 1 ∧
    (interviewPlan u r (dueDateOf u)).length ≤ 1 := by
  obtain ⟨u', r', hu', hr', hts, _⟩ := generate_ok_elim h
  have heq : u' = u := Option.some.inj (hu'.symm.trans hu)
  subst heq
  have hreq : r' = r := by
    rw [hr] at hr'
    exact (Except.ok.inj hr').symm
  subst hreq
  refine ⟨?_, ?_, ?_, satPlan_length_le _ _ _ _, englishPlan_length_le _ _ _ _,
    transcriptsPlan_length_le _ _ _ _, recsPlan_length_le _ _ _ _,
    essaysPlan_length_le _ _ _ _, interviewPlan_length_le _ _ _⟩
  · rw [hts, createAll_length]
    exact taskPlans_length_le _ _ _ _
  · intro t ht
    rw [hts] at ht
    obtain ⟨f, hf, hef⟩ := createAll_mem _ _ ht
    obtain ⟨hid, _, _, _, hst, hpr, _⟩ := fields_eq_coerce hef
    obtain ⟨h1', h2', _, h4'⟩ := taskPlans_props hf
    refine ⟨by rw [hst, h1'], ?_, ?_⟩
    · rcases h4' with h4' | h4'
      · exact Or.inl (by rw [hpr, h4'])
      · exact Or.inr (by rw [hpr, h4'])
    · rw [hid, h2', find?_id hu]
      simp [orNullNat, h0]
  · rw [hts, createAll_fst_map]
    simp [taskPlans, List.map_append]

/-- C10, witness at `exDBSat`. -/
theorem c10_witness :
    UniversityService.getById exDBSat 1 = some exUniSat ∧
    parseRequirements exUniSat.requirements =
      .ok { sat := some { required := true } } ∧
    generateTasksForUniversity exDBSat 1 = (.ok [exTaskSat], exDBSat1) ∧
    (1 : ℕ) ≠ 0 ∧
    ([exTaskSat].length ≤ 6 ∧
      (∀ t ∈ [exTaskSat], t.status = "suggested" ∧
        (t.priority = "high" ∨ t.priority = "medium") ∧
        t.universityId = some 1)) :=
  ⟨rfl, rfl, rfl, one_ne_zero,
    ⟨(c10_batch_invariants exDBSat 1 rfl rfl rfl one_ne_zero).1,
      (c10_batch_invariants exDBSat 1 rfl rfl rfl one_ne_zero).2.1⟩⟩

/-- C5, counterexample: a SAT-deficiency task carries
`profileItemType = "sat_actual"`, not the Profile field name `satActual`
the claim specifies. -/
theorem c5_counterexample :
    Except.map (List.map Task.profileItemType)
        (generateTasksForUniversity exDBSat 1).1 =
      .ok [some "sat_actual"] ∧
    ("sat_actual" : String) ≠ "satActual" := by
  exact ⟨rfl, by decide⟩

/-- C5, amended: each rule stamps a fixed `profileItemType`: SAT tasks get
the snake_case string `sat_actual`; English-test tasks always get
`toeflScore` (the rule fires only when neither score is recorded, so the
`profile.ieltsScore ? 'ieltsScore' : 'toeflScore'` ternary always takes its
default branch); transcripts, recommendations and essays tasks get
`transcriptStatus`, `recommendationsCount` and `statementStatus`; interview
tasks get none.  The batch's item types are exactly those of the fired
rules in order. -/
theorem c5_amended_item_types (db : DB) (uid : ℕ) {u : University}
    {r : UniversityRequirements} {ts : List Task} {db' : DB}
    (hu : UniversityService.getById db uid = some u)
    (hr : parseRequirements u.requirements = .ok r)
    (h : generateTasksForUniversity db uid = (.ok ts, db')) :
    (∀ f ∈ satPlan u (getOrCreateProfile db).1 r (dueDateOf u),
      f.profileItemType = some "sat_actual") ∧
    (∀ f ∈ englishPlan u (getOrCreateProfile db).1 r (dueDateOf u),
      f.profileItemType = some "toeflScore") ∧
    (∀ f ∈ transcriptsPlan u (getOrCreateProfile db).1 r (dueDateOf u),
      f.profileItemType = some "transcriptStatus") ∧
    (∀ f ∈ recsPlan u (getOrCreateProfile db).1 r (dueDateOf u),
      f.profileItemType = some "recommendationsCount") ∧
    (∀ f ∈ essaysPlan u (getOrCreateProfile db).1 r (dueDateOf u),
      f.profileItemType = some "statementStatus") ∧
    (∀ f ∈ interviewPlan u r (dueDateOf u), f.profileItemType = none) ∧
    ts.map Task.profileItemType =
      (taskPlans u (getOrCreateProfile db).1 r (dueDateOf u)).map
        (fun f => orNullStr f.profileItemType) := by
  obtain ⟨u', r', hu', hr', hts, _⟩ := generate_ok_elim h
  have heq : u' = u := Option.some.inj (hu'.symm.trans hu)
  subst heq
  have hreq : r' = r := by
    rw [hr] at hr'
    exact (Except.ok.inj hr').symm
  subst hreq
  refine ⟨fun f hf => (satPlan_props hf).2.2.2.2.1,
    fun f hf => (englishPlan_props hf).2.2.2.2.1,
    fun f hf => (transcriptsPlan_props hf).2.2.2.2.1,
    fun f hf => (recsPlan_props hf).2.2.2.2.1,
    fun f hf => (essaysPlan_props hf).2.2.2.2.1,
    fun f hf => (interviewPlan_props hf).2.2.2.2.1, ?_⟩
  have e1 : ts.map Task.profileItemType =
      (ts.map Task.fields).map TaskFields.profileItemType := by
    rw [List.map_map]
    rfl
  rw [e1, hts, createAll_fst_map, List.map_map]
  rfl

/-- C5, witness for the amended theorem at `exDBSat`. -/
theorem c5_amended_witness :
    UniversityService.getById exDBSat 1 = some exUniSat ∧
    parseRequirements exUniSat.requirements =
      .ok { sat := some { required := true } } ∧
    generateTasksForUniversity exDBSat 1 = (.ok [exTaskSat], exDBSat1) ∧
    [exTaskSat].map Task.profileItemType =
      (taskPlans exUniSat (getOrCreateProfile exDBSat).1
        { sat := some { required := true } } (dueDateOf exUniSat)).map
          (fun f => orNullStr f.profileItemType) :=
  ⟨rfl, rfl, rfl,
    (c5_amended_item_types exDBSat 1 rfl rfl rfl).2.2.2.2.2.2⟩

theorem readinessItems_complete_map {p : Profile} (hwf : p.WF) :
    (readinessItems p).map (fun i => i.complete) = specDimensions p := by
  obtain ⟨w1, w2, w3, w4⟩ := hwf
  simp only [readinessItems, List.map_cons, List.map_nil, specDimensions]
  rw [truthyQ_eq_isSome w1, truthyQ_eq_isSome w2, truthyQ_eq_isSome w3,
    truthyQ_eq_isSome w4]

/-- C4, counterexample: with no Profile row, `getReadinessScore` returns an
empty `items` list, not the six-element list the claim requires. -/
theorem c4_counterexample :
    (getReadinessScore {}).items.length = 0 ∧
      (getReadinessScore {}).total = 6 ∧ (0 : ℕ) ≠ 6 :=
  ⟨rfl, rfl, by decide⟩

theorem getReadinessScore_none {db : DB} (hp : db.profile = none) :
    getReadinessScore db =
      { score := 0, total := 6, completed := 0, items := [] } := by
  unfold getReadinessScore
  rw [hp]

theorem getReadinessScore_some {db : DB} {p : Profile}
    (hp : db.profile = some p) :
    getReadinessScore db =
      { score := jsRound
          ((((readinessItems p).filter (fun i => i.complete)).length : ℚ)
            / (((readinessItems p).length : ℚ)) * 100),
        total := (readinessItems p).length,
        completed := ((readinessItems p).filter (fun i => i.complete)).length,
        items := readinessItems p } := by
  unfold getReadinessScore
  rw [hp]

/-- C4, amended: `getReadinessScore` always reports `total = 6` and
`score = round(100·completed/6)`; when a profile row exists, `completed`
counts the six fixed dimensions and `items` is the six-element list in the
fixed order; when no profile row exists it returns score 0, completed 0 and
an **empty** items list. -/
theorem c4_amended_readiness (db : DB)
    (hwf : ∀ p, db.profile = some p → p.WF) :
    (getReadinessScore db).total = 6 ∧
    (getReadinessScore db).score =
      jsRound (100 * ((getReadinessScore db).completed : ℚ) / 6) ∧
    (db.profile = none →
      getReadinessScore db =
        { score := 0, total := 6, completed := 0, items := [] }) ∧
    ∀ p, db.profile = some p →
      (getReadinessScore db).completed = (specDimensions p).count true ∧
      (getReadinessScore db).items.map (fun i => i.name) =
        ["SAT Score", "IELTS/TOEFL", "Transcripts", "Recommendations",
          "Personal Statement", "Application Fee"] ∧
      (getReadinessScore db).items.map (fun i => i.complete) =
        specDimensions p := by
  refine ⟨?_, ?_, ?_, ?_⟩
  · cases hp : db.profile with
    | none => rw [getReadinessScore_none hp]
    | some p =>
      rw [getReadinessScore_some hp]
      rfl
  · cases hp : db.profile with
    | none =>
      rw [getReadinessScore_none hp]
      norm_num [jsRound]
    | some p =>
      rw [getReadinessScore_some hp]
      simp only
      rw [show (readinessItems p).length = 6 from rfl]
      congr 1
      push_cast
      ring
  · intro hnone
    exact getReadinessScore_none hnone
  · intro q hsome
    have hwfq := hwf q hsome
    rw [getReadinessScore_some hsome]
    refine ⟨?_, rfl, ?_⟩
    · simp only
      rw [length_filter_eq_count, readinessItems_complete_map hwfq]
    · simp only
      exact readinessItems_complete_map hwfq

/-- C4, witness for the amended theorem at a default profile row. -/
theorem c4_amended_witness :
    (∀ p, exDBProfile.profile = some p → p.WF) ∧
    ((getReadinessScore exDBProfile).total = 6 ∧
      (getReadinessScore exDBProfile).score =
        jsRound (100 * ((getReadinessScore exDBProfile).completed : ℚ) / 6)) :=
  ⟨fun p hsome => by
    rw [show exDBProfile.profile = some {} from rfl] at hsome
    rw [← Option.some.inj hsome]
    exact ⟨by simp, by simp, by simp, by simp⟩,
    ⟨(c4_amended_readiness exDBProfile (fun p hsome => by
        rw [show exDBProfile.profile = some {} from rfl] at hsome
        rw [← Option.some.inj hsome]
        exact ⟨by simp, by simp, by simp, by simp⟩)).1,
      (c4_amended_readiness exDBProfile (fun p hsome => by
        rw [show exDBProfile.profile = some {} from rfl] at hsome
        rw [← Option.some.inj hsome]
        exact ⟨by simp, by simp, by simp, by simp⟩)).2.1⟩⟩

/-- C9, counterexample: for a count-based requirement with required count 2
and user count 1, the matcher reports `partial` with `percentage = 50`
(the ratio times 100), not `percentage = count/required = 1/2` as the claim
states. -/
theorem c9_counterexample :
    (getRequirementStatus none (some 1) (some 2)).status = "partial" ∧
    (getRequirementStatus none (some 1) (some 2)).percentage = some 50 ∧
    ¬ ((50 : ℚ) = (1 : ℚ) / 2) := by
  refine ⟨rfl, by norm_num [getRequirementStatus, truthyQ], by norm_num⟩

/-- C9, amended: for a count-based requirement with required count `C > 0`
the matcher returns `missing` when the user count is 0, `partial` with
`percentage = (count/required)·100` when `0 < count < C`, and `complete`
when `count ≥ C`; a dimension with no truthy score requirement and no
truthy count is `not-required`. -/
theorem c9_amended_count_matcher (uniValue userValue : Option ℚ) (c : ℚ)
    (hc : 0 < c) :
    ((userValue.getD 0 = 0 →
        (getRequirementStatus uniValue userValue (some c)).status =
          "missing") ∧
      (0 < userValue.getD 0 → userValue.getD 0 < c →
        getRequirementStatus uniValue userValue (some c) =
          { status := "partial", label := "Partial",
            percentage := some (userValue.getD 0 / c * 100) }) ∧
      (c ≤ userValue.getD 0 →
        (getRequirementStatus uniValue userValue (some c)).status =
          "complete")) ∧
    ∀ uv uc cnt : Option ℚ, truthyQ uv = false → truthyQ cnt = false →
      (getRequirementStatus uv uc cnt).status = "not-required" := by
  have htc : truthyQ (some c) = true := by
    simp only [truthyQ, ne_eq, decide_eq_true_eq]
    exact hc.ne'
  refine ⟨⟨?_, ?_, ?_⟩, ?_⟩
  · intro h0
    have h1 : ¬ (userValue.getD 0 ≥ c) := by
      rw [h0]
      exact not_le.2 hc
    have h2 : ¬ (userValue.getD 0 > 0) := by
      rw [h0]
      exact lt_irrefl 0
    simp [getRequirementStatus, htc, h1, h2]
  · intro hpos hlt
    have h1 : ¬ (userValue.getD 0 ≥ c) := not_le.2 hlt
    simp [getRequirementStatus, htc, h1, hpos]
  · intro hge
    simp [getRequirementStatus, htc, le_of_lt, hge]
  · intro uv uc cnt h1 h2
    simp [getRequirementStatus, h1, h2]

/-- C9, witness for the amended theorem at count 2, user count 1. -/
theorem c9_amended_witness :
    (0 : ℚ) < 2 ∧
    (0 < ((some (1 : ℚ)).getD 0) → ((some (1 : ℚ)).getD 0) < 2 →
      getRequirementStatus none (some 1) (some 2) =
        { status := "partial", label := "Partial",
          percentage := some (((some (1 : ℚ)).getD 0) / 2 * 100) }) :=
  ⟨by norm_num,
    (c9_amended_count_matcher none (some 1) 2 (by norm_num)).1.2.1⟩

end UniTracker
